import Mathlib

/-!
# Verification of `rest_framework_simplejwt/tokens.py`

A shallow embedding of the token lifecycle engine of
`rest_framework_simplejwt` (the `tokens.py` module) together with proofs
about its construction, validation, derivation and revocation behaviour.

Modelling conventions:
* Datetimes and timedeltas are integer epoch seconds (`Int`).  The helpers
  `utils.datetime_to_epoch` / `utils.datetime_from_epoch` (the `utils`
  module is outside the sources) convert between datetimes and integer
  epoch values; with both sides modelled as integers they are the identity
  on well-typed values.
* A token payload is a Python `dict` from claim names to claim values:
  an insertion-ordered association list with unique keys, where updating
  an existing key keeps its position and a new key is appended.
* Claim values are integers or strings (the wire schema of the spec).
* Python exceptions are an error type: `TokenError` (with its user-facing
  message), plus a collapsed constructor for non-`TokenError` exceptions
  (`TypeError`/`KeyError`/`ValueError`), and a `ConfigurationError`
  constructor for the error taxonomy described in the design document,
  so that statements can distinguish it from `TokenError`.
* The cryptographic token backend is an external collaborator: decoding is
  an abstract function `String → Option Payload` (`none` models
  `TokenBackendError`).
* `uuid4().hex` is modelled by passing the freshly generated hex string as
  an explicit argument.
-/

/-- A JSON-style claim value: an integer or a string (the claim schema of
the wire format). -/
inductive ClaimValue : Type where
  | int : Int → ClaimValue
  | str : String → ClaimValue
deriving DecidableEq, Repr

/-- A token payload: a Python `dict` from claim name to claim value,
modelled as an insertion-ordered association list. -/
abbrev Payload : Type := List (String × ClaimValue)

/-- Python `d[k]` lookup (as an `Option`): the value at the first matching
key, if any. -/
def dictGet : Payload → String → Option ClaimValue
  | [], _ => none
  | (k', v') :: rest, k => if k' = k then some v' else dictGet rest k

/-- Python `d[k] = v`: replace the value at an existing key in place
(keeping insertion order), or append a new key at the end. -/
def dictSet : Payload → String → ClaimValue → Payload
  | [], k, v => [(k, v)]
  | (k', v') :: rest, k, v =>
      if k' = k then (k', v) :: rest else (k', v') :: dictSet rest k v

/-- Python `k in d`. -/
def dictContains (p : Payload) (k : String) : Bool :=
  (dictGet p k).isSome

/-- The exception model.  `tokenError` is `TokenError` with its
user-facing message; `configurationError` is the `ConfigurationError`
of the design document's error taxonomy (modelled from the spec: the
exceptions module is outside the sources); `otherError` collapses
non-`TokenError` Python exceptions (`TypeError`, `KeyError`,
`ValueError`). -/
inductive JwtError : Type where
  | tokenError : String → JwtError
  | configurationError : String → JwtError
  | otherError : JwtError
deriving DecidableEq, Repr

/-- The relevant `api_settings` entries.  Modelled from the spec's claim
schema and configuration description (the settings module is outside the
sources); lifetimes are timedeltas in seconds. -/
structure Settings : Type where
  TOKEN_TYPE_CLAIM : String
  USER_ID_CLAIM : String
  ACCESS_TOKEN_LIFETIME : Int
  REFRESH_TOKEN_LIFETIME : Int
  SLIDING_TOKEN_LIFETIME : Int
  SLIDING_TOKEN_REFRESH_LIFETIME : Int
  SLIDING_TOKEN_REFRESH_EXP_CLAIM : String
deriving DecidableEq, Repr

/-- The default configuration (spec §6 claim schema defaults; lifetimes
are representative positive durations). -/
def defaultSettings : Settings :=
  { TOKEN_TYPE_CLAIM := "token_type"
    USER_ID_CLAIM := "user_id"
    ACCESS_TOKEN_LIFETIME := 300
    REFRESH_TOKEN_LIFETIME := 86400
    SLIDING_TOKEN_LIFETIME := 300
    SLIDING_TOKEN_REFRESH_LIFETIME := 86400
    SLIDING_TOKEN_REFRESH_EXP_CLAIM := "refresh_exp" }

/-- A token class: the class attributes `token_type` and `lifetime`
(`None` when left undefined, as on the abstract `Token` base class). -/
structure TokenClass : Type where
  token_type : Option String
  lifetime : Option Int
deriving DecidableEq, Repr

/-- The state of a constructed `Token` instance: the attributes set by
`Token.__init__` (`self.token`, `self.current_time`, `self.payload`). -/
structure Token : Type where
  token : Option String
  current_time : Int
  payload : Payload
deriving DecidableEq, Repr

/-- `utils.datetime_to_epoch`: a datetime to integer epoch seconds.
Modelled from the spec (`utils` is outside the sources): with datetimes
already integer epoch seconds this is the identity. -/
def datetime_to_epoch (t : Int) : Int := t

/-- `utils.datetime_from_epoch` applied to a claim value.  Modelled from
the spec (`utils` is outside the sources): an integer epoch value converts
to the corresponding datetime (the identity here); a non-numeric value
raises a non-`TokenError` exception (`TypeError` in Python). -/
def datetime_from_epoch : ClaimValue → Except JwtError Int
  | ClaimValue.int n => Except.ok n
  | ClaimValue.str _ => Except.error JwtError.otherError

/-- `Token.set_exp(claim='exp', from_time=None, lifetime=None)`:
`from_time` defaults to `self.current_time`, `lifetime` to
`self.lifetime`; stores `datetime_to_epoch (from_time + lifetime)` under
`claim`.  `self_current_time` and `self_lifetime` are the instance
attributes supplying the defaults. -/
def set_exp (self_current_time : Int) (self_lifetime : Int) (p : Payload)
    (claim : String) (from_time : Option Int) (lifetime : Option Int) : Payload :=
  let ft := from_time.getD self_current_time
  let lt := lifetime.getD self_lifetime
  dictSet p claim (ClaimValue.int (datetime_to_epoch (ft + lt)))

/-- `Token.check_exp(claim='exp', current_time=None)`: `current_time`
defaults to `self.current_time`; raises `TokenError` when the claim is
absent or its timestamp has passed (is `<=` the reference time). -/
def check_exp (self_current_time : Int) (p : Payload) (claim : String)
    (current_time : Option Int) : Except JwtError Unit :=
  let ct := current_time.getD self_current_time
  match dictGet p claim with
  | none =>
      Except.error (JwtError.tokenError ("Token has no '" ++ claim ++ "' claim"))
  | some claim_value =>
      match datetime_from_epoch claim_value with
      | Except.error e => Except.error e
      | Except.ok claim_time =>
          if claim_time ≤ ct then
            Except.error (JwtError.tokenError ("Token '" ++ claim ++ "' claim has expired"))
          else
            Except.ok ()

/-- `Token.__init__(token=None)`.  `backend` is the external token
backend's `decode` (`none` models `TokenBackendError`); `now` is the
value of `aware_utcnow()` captured as `self.current_time`; `freshJti` is
the `uuid4().hex` drawn on the fresh-construction path. -/
def Token.init (cls : TokenClass) (s : Settings)
    (backend : String → Option Payload) (now : Int) (freshJti : String)
    (tok : Option String) : Except JwtError Token :=
  match cls.token_type, cls.lifetime with
  | some token_type, some lifetime =>
      match tok with
      | some t =>
          -- An encoded token was provided: ensure token and signature are valid
          match backend t with
          | none => Except.error (JwtError.tokenError "Token is invalid or expired")
          | some payload =>
              -- self.check_exp()
              match check_exp now payload "exp" none with
              | Except.error e => Except.error e
              | Except.ok _ =>
                  -- Ensure token type claim is present and has correct value
                  match dictGet payload s.TOKEN_TYPE_CLAIM with
                  | none => Except.error (JwtError.tokenError "Token has no type")
                  | some claimed_type =>
                      if claimed_type ≠ ClaimValue.str token_type then
                        Except.error (JwtError.tokenError "Token has wrong type")
                      else if ¬ dictContains payload "jti" then
                        Except.error (JwtError.tokenError "Token has no id")
                      else
                        Except.ok { token := some t, current_time := now, payload := payload }
      | none =>
          -- A new token: skip validation, set type and id claims, then exp
          let payload0 := dictSet (dictSet [] s.TOKEN_TYPE_CLAIM (ClaimValue.str token_type))
            "jti" (ClaimValue.str freshJti)
          let payload1 := set_exp now lifetime payload0 "exp" (some now) (some lifetime)
          Except.ok { token := none, current_time := now, payload := payload1 }
  | _, _ =>
      Except.error (JwtError.tokenError "Cannot create token with no type or lifetime")

/-- Value of a hexadecimal digit character, `none` for any other
character. -/
def hexDigitVal (c : Char) : Option Nat :=
  if '0' ≤ c ∧ c ≤ '9' then some (c.toNat - '0'.toNat)
  else if 'a' ≤ c ∧ c ≤ 'f' then some (c.toNat - 'a'.toNat + 10)
  else if 'A' ≤ c ∧ c ≤ 'F' then some (c.toNat - 'A'.toNat + 10)
  else none

/-- Matches `pat` as a prefix of the list, returning what follows it. -/
def dropPat : List Char → List Char → Option (List Char)
  | [], l => some l
  | _ :: _, [] => none
  | p :: ps, c :: cs => if p = c then dropPat ps cs else none

/-- Python `s.replace(pat, '')`: remove every non-overlapping occurrence
of `pat`, scanning left to right; `fuel` bounds the recursion by the
input length (each step consumes at least one character). -/
def removeAllFuel (pat : List Char) : Nat → List Char → List Char
  | _, [] => []
  | 0, l => l
  | Nat.succ fuel, c :: rest =>
      match dropPat pat (c :: rest) with
      | some remainder => removeAllFuel pat fuel remainder
      | none => c :: removeAllFuel pat fuel rest

/-- Python `s.replace(pat, '')` on character lists. -/
def removeAll (pat : List Char) (l : List Char) : List Char :=
  removeAllFuel pat l.length l

/-- A curly brace (written by code to keep the braces out of literals). -/
def isBraceChar (c : Char) : Bool :=
  c == Char.ofNat 123 || c == Char.ofNat 125

/-- Python `s.strip` over the two brace characters: drop every leading
and trailing brace. -/
def stripBraces (l : List Char) : List Char :=
  ((l.dropWhile isBraceChar).reverse.dropWhile isBraceChar).reverse

/-- Python `int(s, 16)`'s surrounding-whitespace stripping. -/
def trimWs (l : List Char) : List Char :=
  ((l.dropWhile Char.isWhitespace).reverse.dropWhile Char.isWhitespace).reverse

/-- The digit part of CPython `int(s, 16)`: further hexadecimal digits
with single underscores allowed between digits, accumulating the value. -/
def hexDigitsRest (acc : Nat) : List Char → Option Nat
  | [] => some acc
  | '_' :: c :: cs =>
      match hexDigitVal c with
      | some d => hexDigitsRest (16 * acc + d) cs
      | none => none
  | '_' :: [] => none
  | c :: cs =>
      match hexDigitVal c with
      | some d => hexDigitsRest (16 * acc + d) cs
      | none => none

/-- Nonempty hexadecimal digits with single underscores between digits
(no leading or trailing underscore). -/
def hexDigits : List Char → Option Nat
  | [] => none
  | c :: cs =>
      match hexDigitVal c with
      | some d => hexDigitsRest d cs
      | none => none

/-- CPython `int(s, 16)` after the optional sign: an optional `0x`/`0X`
prefix, with one underscore allowed right after it, then hex digits. -/
def hexAfterSign (l : List Char) : Option Nat :=
  match l with
  | '0' :: c :: rest =>
      if c == 'x' || c == 'X' then
        match rest with
        | '_' :: rest2 => hexDigits rest2
        | _ => hexDigits rest
      else hexDigits l
  | _ => hexDigits l

/-- CPython `int(s, 16)`, for the spellings reachable from
`UUID(hex=...)`: surrounding whitespace and a leading `+` are accepted;
a leading `-` never reaches this call (the constructor removes every `-`
first) and parses to no value. -/
def py_int_hex (l : List Char) : Option Nat :=
  match trimWs l with
  | '+' :: rest => hexAfterSign rest
  | '-' :: _ => none
  | t => hexAfterSign t

/-- `uuid.UUID(hex=jti)` of the Python standard library, the call at the
blacklist check (tokens.py line 167): remove every `urn:` and `uuid:`,
strip surrounding braces, remove every `-`, require exactly 32 remaining
characters, and parse them as a hexadecimal integer; any failure raises
`ValueError` ("badly formed hexadecimal UUID string"), modelled as
`none`.  The result is the UUID's 128-bit integer value, the identity
the ledger is keyed by (32 hex digits are always below `2 ^ 128`, so the
constructor's range check cannot fail here). -/
def uuid_from_hex (s : String) : Option Nat :=
  let h := removeAll ['-']
    (stripBraces (removeAll "uuid:".data (removeAll "urn:".data s.data)))
  if h.length = 32 then py_int_hex h else none

/-- `BlacklistMixin.check_blacklist`: build `UUID(hex=jti)` from the
token's `jti`, look it up in the blacklist and raise `TokenError` when
found.  The ledger lookup `BlacklistedToken.objects.get(token__jti=jti)`
is modelled from the spec's Revocation Ledger contract
`is_blacklisted(jti) -> bool`, keyed by the UUID's value (the
`token_blacklist` app is outside the sources).  A missing or non-string
`jti` raises a non-`TokenError` exception (`KeyError`/`TypeError`), and
a string that is not well-formed hexadecimal raises `ValueError` before
any lookup. -/
def check_blacklist (is_blacklisted : Nat → Bool) (p : Payload) :
    Except JwtError Unit :=
  match dictGet p "jti" with
  | none => Except.error JwtError.otherError
  | some (ClaimValue.int _) => Except.error JwtError.otherError
  | some (ClaimValue.str jti) =>
      match uuid_from_hex jti with
      | none => Except.error JwtError.otherError
      | some u =>
          if is_blacklisted u then
            Except.error (JwtError.tokenError "Token is blacklisted")
          else
            Except.ok ()

/-- `BlacklistMixin.__init__`: when the `token_blacklist` app is installed
(`enabled`), run `Token.__init__` and then, for an encoded token only,
`check_blacklist`; when the app is not installed the mixin defines no
`__init__` and construction is exactly `Token.__init__`. -/
def BlacklistMixin.init (enabled : Bool) (is_blacklisted : Nat → Bool)
    (cls : TokenClass) (s : Settings) (backend : String → Option Payload)
    (now : Int) (freshJti : String) (tok : Option String) :
    Except JwtError Token :=
  match Token.init cls s backend now freshJti tok with
  | Except.error e => Except.error e
  | Except.ok self =>
      if enabled then
        match self.token with
        | some _ =>
            match check_blacklist is_blacklisted self.payload with
            | Except.error e => Except.error e
            | Except.ok _ => Except.ok self
        | none => Except.ok self
      else
        Except.ok self

/-- The `AccessToken` class attributes: tag `"access"`, lifetime
`ACCESS_TOKEN_LIFETIME`. -/
def AccessToken.cls (s : Settings) : TokenClass :=
  { token_type := some "access", lifetime := some s.ACCESS_TOKEN_LIFETIME }

/-- The `RefreshToken` class attributes: tag `"refresh"`, lifetime
`REFRESH_TOKEN_LIFETIME`. -/
def RefreshToken.cls (s : Settings) : TokenClass :=
  { token_type := some "refresh", lifetime := some s.REFRESH_TOKEN_LIFETIME }

/-- The `SlidingToken` class attributes: tag `"sliding"`, lifetime
`SLIDING_TOKEN_LIFETIME`. -/
def SlidingToken.cls (s : Settings) : TokenClass :=
  { token_type := some "sliding", lifetime := some s.SLIDING_TOKEN_LIFETIME }

/-- `RefreshToken.__init__` = `BlacklistMixin.__init__` at the
`RefreshToken` class attributes. -/
def RefreshToken.init (enabled : Bool) (is_blacklisted : Nat → Bool)
    (s : Settings) (backend : String → Option Payload) (now : Int)
    (freshJti : String) (tok : Option String) : Except JwtError Token :=
  BlacklistMixin.init enabled is_blacklisted (RefreshToken.cls s) s backend now freshJti tok

/-- `SlidingToken.__init__`: run the superclass constructor
(`BlacklistMixin` over `Token`), then, for a new token only, stamp the
sliding refresh expiration claim with
`set_exp(SLIDING_TOKEN_REFRESH_EXP_CLAIM, from_time=self.current_time,
lifetime=SLIDING_TOKEN_REFRESH_LIFETIME)`. -/
def SlidingToken.init (enabled : Bool) (is_blacklisted : Nat → Bool)
    (s : Settings) (backend : String → Option Payload) (now : Int)
    (freshJti : String) (tok : Option String) : Except JwtError Token :=
  match BlacklistMixin.init enabled is_blacklisted (SlidingToken.cls s) s backend now freshJti tok with
  | Except.error e => Except.error e
  | Except.ok self =>
      match self.token with
      | none =>
          let stamped := set_exp self.current_time s.SLIDING_TOKEN_LIFETIME
            self.payload s.SLIDING_TOKEN_REFRESH_EXP_CLAIM
            (some self.current_time) (some s.SLIDING_TOKEN_REFRESH_LIFETIME)
          Except.ok { self with payload := stamped }
      | some _ => Except.ok self

/-- `RefreshToken.no_copy_claims`. -/
def no_copy_claims (s : Settings) : List String :=
  [s.TOKEN_TYPE_CLAIM, "exp", "jti"]

/-- One iteration of the claim-copy loop in `RefreshToken.access_token`:
`if claim in no_copy: continue` else `access[claim] = value`.  The state
is the pair (access payload, refresh payload); the loop body writes only
the access component. -/
def copy_step (s : Settings) (st : Payload × Payload) (kv : String × ClaimValue) :
    Payload × Payload :=
  if (no_copy_claims s).contains kv.1 then st else (dictSet st.1 kv.1 kv.2, st.2)

/-- `RefreshToken.access_token`: build a fresh `AccessToken` (at the
derivation's own wall-clock time `nowA`, with a fresh `uuid4().hex`
`jtiA`), override its `exp` from the refresh token's `current_time`, and
copy every claim outside `no_copy_claims` from `self.payload`.  The
embedding threads `self` through every statement so that mutation of the
refresh token would be visible: the loop `access[claim] = value` updates
only the access component.  Returns `(access, self after the call)`. -/
def RefreshToken.access_token (s : Settings) (self : Token) (nowA : Int)
    (jtiA : String) : Except JwtError (Token × Token) :=
  match Token.init (AccessToken.cls s) s (fun _ => none) nowA jtiA none with
  | Except.error e => Except.error e
  | Except.ok access0 =>
      -- access.set_exp(from_time=self.current_time)
      let p1 := set_exp access0.current_time s.ACCESS_TOKEN_LIFETIME
        access0.payload "exp" (some self.current_time) none
      let access1 : Token := { access0 with payload := p1 }
      -- for claim, value in self.payload.items(): skip no_copy; access[claim] = value
      let st := self.payload.foldl (copy_step s) (access1.payload, self.payload)
      Except.ok ({ access1 with payload := st.1 }, { self with payload := st.2 })

/-- The value found at `getattr(user, api_settings.USER_ID_FIELD)`: an
integer, a string, or some other object carried with its text
representation (`text_type(obj)`). -/
inductive UserIdValue : Type where
  | int : Int → UserIdValue
  | str : String → UserIdValue
  | other : String → UserIdValue
deriving DecidableEq, Repr

/-- `text_type` (`str`) applied to a user id value. -/
def text_type : UserIdValue → String
  | UserIdValue.int n => toString n
  | UserIdValue.str s => s
  | UserIdValue.other r => r

/-- The coercion in `Token.for_user`: `if not isinstance(user_id, int):
user_id = text_type(user_id)`. -/
def coerce_user_id : UserIdValue → ClaimValue
  | UserIdValue.int n => ClaimValue.int n
  | UserIdValue.str s => ClaimValue.str (text_type (UserIdValue.str s))
  | UserIdValue.other r => ClaimValue.str (text_type (UserIdValue.other r))

/-- `Token.for_user(user)`: construct a fresh token of the class and set
the configured user id claim to the user's identifier, coerced to a
string unless it is an integer.  `user_id` is the attribute value read
from the user object. -/
def Token.for_user (cls : TokenClass) (s : Settings) (now : Int)
    (freshJti : String) (user_id : UserIdValue) : Except JwtError Token :=
  let uid := coerce_user_id user_id
  match Token.init cls s (fun _ => none) now freshJti none with
  | Except.error e => Except.error e
  | Except.ok t => Except.ok { t with payload := dictSet t.payload s.USER_ID_CLAIM uid }

/-- Expiry check of the decode path, stated on the payload: an `exp` claim
exists with an integer timestamp strictly after the reference time. -/
def expCheckPasses (p : Payload) (now : Int) : Bool :=
  match dictGet p "exp" with
  | some (ClaimValue.int n) => decide (now < n)
  | _ => false

/-- Type check of the decode path, stated on the payload: the configured
type claim exists and equals the class's type tag. -/
def typeCheckPasses (s : Settings) (token_type : String) (p : Payload) : Bool :=
  decide (dictGet p s.TOKEN_TYPE_CLAIM = some (ClaimValue.str token_type))

/-- Id check of the decode path, stated on the payload: a `jti` claim
exists. -/
def idCheckPasses (p : Payload) : Bool :=
  dictContains p "jti"

theorem dictGet_dictSet_self (p : Payload) (k : String) (v : ClaimValue) :
    dictGet (dictSet p k v) k = some v := by
  induction p with
  | nil => simp [dictSet, dictGet]
  | cons kv rest ih =>
      obtain ⟨k', v'⟩ := kv
      by_cases h : k' = k <;> simp [dictSet, dictGet, h, ih]

theorem dictGet_dictSet_ne (p : Payload) (k : String) (v : ClaimValue)
    (c : String) (h : c ≠ k) : dictGet (dictSet p k v) c = dictGet p c := by
  have hk : ¬ k = c := fun hh => h hh.symm
  induction p with
  | nil => simp [dictSet, dictGet, hk]
  | cons kv rest ih =>
      obtain ⟨k', v'⟩ := kv
      by_cases h1 : k' = k
      · subst h1
        simp [dictSet, dictGet, hk]
      · by_cases h2 : k' = c <;> simp [dictSet, dictGet, h1, h2, h, hk, ih]

theorem copy_step_mem (s : Settings) (st : Payload × Payload)
    (kv : String × ClaimValue) (h : kv.1 ∈ no_copy_claims s) :
    copy_step s st kv = st := by
  simp [copy_step, h]

theorem copy_step_not_mem (s : Settings) (st : Payload × Payload)
    (kv : String × ClaimValue) (h : kv.1 ∉ no_copy_claims s) :
    copy_step s st kv = (dictSet st.1 kv.1 kv.2, st.2) := by
  simp [copy_step, h]

theorem foldl_copy_snd (s : Settings) (l : Payload) (a b : Payload) :
    (l.foldl (copy_step s) (a, b)).2 = b := by
  induction l generalizing a b with
  | nil => rfl
  | cons kv rest ih =>
      rw [List.foldl_cons]
      by_cases hk : kv.1 ∈ no_copy_claims s
      · rw [copy_step_mem s (a, b) kv hk]
        exact ih a b
      · rw [copy_step_not_mem s (a, b) kv hk]
        exact ih (dictSet a kv.1 kv.2) b

theorem foldl_copy_fst_no_copy (s : Settings) (l : Payload) (a b : Payload)
    (c : String) (hc : c ∈ no_copy_claims s) :
    dictGet ((l.foldl (copy_step s) (a, b)).1) c = dictGet a c := by
  induction l generalizing a b with
  | nil => rfl
  | cons kv rest ih =>
      rw [List.foldl_cons]
      by_cases hk : kv.1 ∈ no_copy_claims s
      · rw [copy_step_mem s (a, b) kv hk]
        exact ih a b
      · have hne : c ≠ kv.1 := fun he => hk (he ▸ hc)
        rw [copy_step_not_mem s (a, b) kv hk,
          ih (dictSet a kv.1 kv.2) b, dictGet_dictSet_ne a kv.1 kv.2 c hne]

theorem foldl_copy_fst_not_key (s : Settings) (l : Payload) (a b : Payload)
    (c : String) : (∀ kv ∈ l, kv.1 ≠ c) →
    dictGet ((l.foldl (copy_step s) (a, b)).1) c = dictGet a c := by
  induction l generalizing a b with
  | nil => intro _; rfl
  | cons kv rest ih =>
      intro hc
      have hrest : ∀ x ∈ rest, x.1 ≠ c := fun x hx => hc x (List.mem_cons_of_mem kv hx)
      have hne : c ≠ kv.1 := fun he => hc kv (List.mem_cons_self kv rest) he.symm
      rw [List.foldl_cons]
      by_cases hk : kv.1 ∈ no_copy_claims s
      · rw [copy_step_mem s (a, b) kv hk]
        exact ih a b hrest
      · rw [copy_step_not_mem s (a, b) kv hk,
          ih (dictSet a kv.1 kv.2) b hrest, dictGet_dictSet_ne a kv.1 kv.2 c hne]

theorem foldl_copy_fst_copied (s : Settings) (l : Payload) (a b : Payload)
    (c : String) (v : ClaimValue) (hc : c ∉ no_copy_claims s) :
    (l.map Prod.fst).Nodup → dictGet l c = some v →
    dictGet ((l.foldl (copy_step s) (a, b)).1) c = some v := by
  induction l generalizing a b with
  | nil =>
      intro _ hv
      simp [dictGet] at hv
  | cons kv rest ih =>
      intro hnd hv
      obtain ⟨k, w⟩ := kv
      rw [List.map_cons, List.nodup_cons] at hnd
      rw [List.foldl_cons]
      by_cases hkc : k = c
      · subst hkc
        have hw : w = v := by simpa [dictGet] using hv
        subst hw
        have hrest : ∀ kv2 ∈ rest, kv2.1 ≠ k := by
          intro kv2 hkv2 hEq
          have hmem : kv2.1 ∈ List.map Prod.fst rest :=
            List.mem_map_of_mem Prod.fst hkv2
          exact hnd.1 (hEq ▸ hmem)
        rw [copy_step_not_mem s (a, b) (k, w) hc,
          foldl_copy_fst_not_key s rest (dictSet a k w) b k hrest,
          dictGet_dictSet_self]
      · have hv' : dictGet rest c = some v := by
          simpa [dictGet, hkc] using hv
        by_cases hk : k ∈ no_copy_claims s
        · rw [copy_step_mem s (a, b) (k, w) hk]
          exact ih a b hnd.2 hv'
        · rw [copy_step_not_mem s (a, b) (k, w) hk]
          exact ih (dictSet a k w) b hnd.2 hv'

theorem token_init_encoded_ok (cls : TokenClass) (s : Settings)
    (backend : String → Option Payload) (now : Int) (j : String) (enc : String)
    (st : Token) (h : Token.init cls s backend now j (some enc) = Except.ok st) :
    ∃ p, backend enc = some p ∧
      st = { token := some enc, current_time := now, payload := p } := by
  obtain ⟨tt0, lt0⟩ := cls
  cases tt0 with
  | none => simp [Token.init] at h
  | some tt =>
      cases lt0 with
      | none => simp [Token.init] at h
      | some lt =>
          cases hb : backend enc with
          | none => simp [Token.init, hb] at h
          | some p =>
              refine ⟨p, rfl, ?_⟩
              cases hc : check_exp now p "exp" none with
              | error e => simp [Token.init, hb, hc] at h
              | ok u =>
                  cases ht : dictGet p s.TOKEN_TYPE_CLAIM with
                  | none => simp [Token.init, hb, hc, ht] at h
                  | some v =>
                      by_cases hv : v = ClaimValue.str tt
                      · by_cases hj : dictContains p "jti" = true
                        · simp [Token.init, hb, hc, ht, hv, hj] at h
                          exact h.symm
                        · simp [Token.init, hb, hc, ht, hv, hj] at h
                      · simp [Token.init, hb, hc, ht, hv] at h

theorem token_init_fresh_token_none (cls : TokenClass) (s : Settings)
    (backend : String → Option Payload) (now : Int) (j : String) (st : Token)
    (h : Token.init cls s backend now j none = Except.ok st) : st.token = none := by
  obtain ⟨tt0, lt0⟩ := cls
  cases tt0 with
  | none => simp [Token.init] at h
  | some tt =>
      cases lt0 with
      | none => simp [Token.init] at h
      | some lt =>
          simp [Token.init] at h
          rw [← h]

theorem blacklist_init_ok (enabled : Bool) (bl : Nat → Bool)
    (cls : TokenClass) (s : Settings) (backend : String → Option Payload)
    (now : Int) (j : String) (tok : Option String) (st : Token)
    (h : BlacklistMixin.init enabled bl cls s backend now j tok = Except.ok st) :
    Token.init cls s backend now j tok = Except.ok st := by
  cases hT : Token.init cls s backend now j tok with
  | error e => simp [BlacklistMixin.init, hT] at h
  | ok self =>
      by_cases he : enabled
      · cases htok : self.token with
        | none =>
            simp [BlacklistMixin.init, hT, he, htok] at h
            rw [← h]
        | some t =>
            cases hcb : check_blacklist bl self.payload with
            | error e => simp [BlacklistMixin.init, hT, he, htok, hcb] at h
            | ok u =>
                simp [BlacklistMixin.init, hT, he, htok, hcb] at h
                rw [← h]
      · simp [BlacklistMixin.init, hT, he] at h
        rw [← h]

theorem blacklist_init_fresh (enabled : Bool) (bl : Nat → Bool)
    (cls : TokenClass) (s : Settings) (backend : String → Option Payload)
    (now : Int) (j : String) :
    BlacklistMixin.init enabled bl cls s backend now j none =
      Token.init cls s backend now j none := by
  cases hT : Token.init cls s backend now j none with
  | error e => simp [BlacklistMixin.init, hT]
  | ok self =>
      have htok : self.token = none := token_init_fresh_token_none cls s backend now j self hT
      by_cases he : enabled <;> simp [BlacklistMixin.init, hT, he, htok]

theorem expCheckPasses_iff (p : Payload) (now : Int) :
    expCheckPasses p now = true ↔
      ∃ n, dictGet p "exp" = some (ClaimValue.int n) ∧ now < n := by
  cases hget : dictGet p "exp" with
  | none => simp [expCheckPasses, hget]
  | some v =>
      cases v with
      | int n => simp [expCheckPasses, hget]
      | str t => simp [expCheckPasses, hget]

/-- C2: `check_exp(claim, current_time)` raises a `TokenError` precisely
when the named claim is absent from the payload or its timestamp is less
than or equal to the reference time; the reference time defaults to the
instance's captured `current_time`; a claim timestamp equal to the
reference time is rejected and one a second later is accepted. -/
theorem check_exp_token_error_iff (ict : Int) (p : Payload) (c : String) (now : Int) :
    ((∃ m, check_exp ict p c (some now) = Except.error (JwtError.tokenError m)) ↔
      (dictGet p c = none ∨ ∃ n, dictGet p c = some (ClaimValue.int n) ∧ n ≤ now))
    ∧ check_exp ict p c none = check_exp ict p c (some ict)
    ∧ (dictGet p c = some (ClaimValue.int now) →
        check_exp ict p c (some now) =
          Except.error (JwtError.tokenError ("Token '" ++ c ++ "' claim has expired")))
    ∧ (dictGet p c = some (ClaimValue.int (now + 1)) →
        check_exp ict p c (some now) = Except.ok ()) := by
  refine ⟨?_, rfl, ?_, ?_⟩
  · cases hget : dictGet p c with
    | none => simp [check_exp, hget]
    | some v =>
        cases v with
        | int n =>
            by_cases hle : n ≤ now
            · simp [check_exp, hget, datetime_from_epoch, hle]
            · simp [check_exp, hget, datetime_from_epoch, hle]
        | str t => simp [check_exp, hget, datetime_from_epoch]
  · intro h
    simp [check_exp, h, datetime_from_epoch]
  · intro h
    simp [check_exp, h, datetime_from_epoch]

/-- Witness for C2 at a concrete payload: an `exp` of 5 is rejected at
time 5 and an `exp` of 6 is accepted at time 5. -/
theorem check_exp_token_error_iff_witness :
    check_exp 0 [("exp", ClaimValue.int 5)] "exp" (some 5) =
      Except.error (JwtError.tokenError ("Token '" ++ "exp" ++ "' claim has expired"))
    ∧ check_exp 0 [("exp", ClaimValue.int 6)] "exp" (some 5) = Except.ok () :=
  ⟨(check_exp_token_error_iff 0 [("exp", ClaimValue.int 5)] "exp" 5).2.2.1 (by decide),
   (check_exp_token_error_iff 0 [("exp", ClaimValue.int 6)] "exp" 5).2.2.2 (by decide)⟩

/-- C1: constructing a token from an encoded string maps any
backend-reported verification failure to the generic
`TokenError("Token is invalid or expired")`, and on backend success runs,
in order and failing fast with the corresponding `TokenError`, the exp
check, the type check and the id check; a token is returned exactly when
all three pass. -/
theorem token_init_decode_validation (cls : TokenClass) (s : Settings)
    (backend : String → Option Payload) (now : Int) (j : String) (enc : String)
    (tt : String) (lt : Int) (h1 : cls.token_type = some tt)
    (h2 : cls.lifetime = some lt) :
    (backend enc = none →
      Token.init cls s backend now j (some enc) =
        Except.error (JwtError.tokenError "Token is invalid or expired"))
    ∧ ∀ p, backend enc = some p →
        (((∃ st, Token.init cls s backend now j (some enc) = Except.ok st) ↔
            (expCheckPasses p now = true ∧ typeCheckPasses s tt p = true ∧
              idCheckPasses p = true))
        ∧ (dictGet p "exp" = none →
            Token.init cls s backend now j (some enc) =
              Except.error (JwtError.tokenError ("Token has no '" ++ "exp" ++ "' claim")))
        ∧ (∀ n, dictGet p "exp" = some (ClaimValue.int n) → n ≤ now →
            Token.init cls s backend now j (some enc) =
              Except.error (JwtError.tokenError ("Token '" ++ "exp" ++ "' claim has expired")))
        ∧ (expCheckPasses p now = true → dictGet p s.TOKEN_TYPE_CLAIM = none →
            Token.init cls s backend now j (some enc) =
              Except.error (JwtError.tokenError "Token has no type"))
        ∧ (expCheckPasses p now = true →
            ∀ v, dictGet p s.TOKEN_TYPE_CLAIM = some v → v ≠ ClaimValue.str tt →
              Token.init cls s backend now j (some enc) =
                Except.error (JwtError.tokenError "Token has wrong type"))
        ∧ (expCheckPasses p now = true → typeCheckPasses s tt p = true →
            idCheckPasses p = false →
              Token.init cls s backend now j (some enc) =
                Except.error (JwtError.tokenError "Token has no id"))) := by
  obtain ⟨a, b⟩ := cls
  simp only [TokenClass.token_type] at h1
  simp only [TokenClass.lifetime] at h2
  subst h1
  subst h2
  constructor
  · intro hb
    simp [Token.init, hb]
  · intro p hb
    refine ⟨⟨?_, ?_⟩, ?_, ?_, ?_, ?_, ?_⟩
    · rintro ⟨st, hst⟩
      by_cases hexp : expCheckPasses p now = true
      · obtain ⟨n, hget, hn⟩ := (expCheckPasses_iff p now).1 hexp
        have hn' : ¬ n ≤ now := by omega
        cases htype : dictGet p s.TOKEN_TYPE_CLAIM with
        | none => simp [Token.init, hb, check_exp, hget, datetime_from_epoch, hn', htype] at hst
        | some v =>
            by_cases hv : v = ClaimValue.str tt
            · subst hv
              refine ⟨hexp, by simp [typeCheckPasses, htype], ?_⟩
              by_cases hid : idCheckPasses p = true
              · exact hid
              · exfalso
                have hid' : dictContains p "jti" = false := by
                  simpa [idCheckPasses] using hid
                simp [Token.init, hb, check_exp, hget, datetime_from_epoch, hn',
                  htype, hid'] at hst
            · exfalso
              simp [Token.init, hb, check_exp, hget, datetime_from_epoch, hn',
                htype, hv] at hst
      · exfalso
        cases hget : dictGet p "exp" with
        | none => simp [Token.init, hb, check_exp, hget] at hst
        | some v =>
            cases v with
            | int n =>
                have hn : n ≤ now := by
                  by_contra hn
                  exact hexp ((expCheckPasses_iff p now).2 ⟨n, hget, by omega⟩)
                simp [Token.init, hb, check_exp, hget, datetime_from_epoch, hn] at hst
            | str t =>
                simp [Token.init, hb, check_exp, hget, datetime_from_epoch] at hst
    · rintro ⟨hexp, htype, hid⟩
      obtain ⟨n, hget, hn⟩ := (expCheckPasses_iff p now).1 hexp
      have hn' : ¬ n ≤ now := by omega
      have htype' : dictGet p s.TOKEN_TYPE_CLAIM = some (ClaimValue.str tt) := by
        simpa [typeCheckPasses] using htype
      have hid' : dictContains p "jti" = true := by
        simpa [idCheckPasses] using hid
      exact ⟨{ token := some enc, current_time := now, payload := p },
        by simp [Token.init, hb, check_exp, hget, datetime_from_epoch, hn', htype', hid']⟩
    · intro h
      simp [Token.init, hb, check_exp, h]
    · intro n hget hle
      simp [Token.init, hb, check_exp, hget, datetime_from_epoch, hle]
    · intro hexp htype
      obtain ⟨n, hget, hn⟩ := (expCheckPasses_iff p now).1 hexp
      have hn' : ¬ n ≤ now := by omega
      simp [Token.init, hb, check_exp, hget, datetime_from_epoch, hn', htype]
    · intro hexp v htype hv
      obtain ⟨n, hget, hn⟩ := (expCheckPasses_iff p now).1 hexp
      have hn' : ¬ n ≤ now := by omega
      simp [Token.init, hb, check_exp, hget, datetime_from_epoch, hn', htype, hv]
    · intro hexp htype hid
      obtain ⟨n, hget, hn⟩ := (expCheckPasses_iff p now).1 hexp
      have hn' : ¬ n ≤ now := by omega
      have htype' : dictGet p s.TOKEN_TYPE_CLAIM = some (ClaimValue.str tt) := by
        simpa [typeCheckPasses] using htype
      have hid' : dictContains p "jti" = false := by
        simpa [idCheckPasses] using hid
      simp [Token.init, hb, check_exp, hget, datetime_from_epoch, hn', htype', hid']

/-- Witness for C1 at a concrete backend and payload: a decoded payload
with a future exp, the right type and a jti yields a token. -/
theorem token_init_decode_validation_witness :
    ∃ st, Token.init (AccessToken.cls defaultSettings) defaultSettings
        (fun _ => some [("exp", ClaimValue.int 100),
                        ("token_type", ClaimValue.str "access"),
                        ("jti", ClaimValue.str "abc")])
        0 "j" (some "enc") = Except.ok st :=
  ((token_init_decode_validation (AccessToken.cls defaultSettings) defaultSettings
      (fun _ => some [("exp", ClaimValue.int 100),
                      ("token_type", ClaimValue.str "access"),
                      ("jti", ClaimValue.str "abc")])
      0 "j" "enc" "access" 300 rfl rfl).2
    [("exp", ClaimValue.int 100), ("token_type", ClaimValue.str "access"),
      ("jti", ClaimValue.str "abc")] rfl).1.2 ⟨by decide, by decide, by decide⟩

theorem token_init_fresh_eq (cls : TokenClass) (s : Settings)
    (backend : String → Option Payload) (now : Int) (j : String)
    (tt : String) (lt : Int) (h1 : cls.token_type = some tt)
    (h2 : cls.lifetime = some lt) (hc1 : s.TOKEN_TYPE_CLAIM ≠ "jti")
    (hc2 : s.TOKEN_TYPE_CLAIM ≠ "exp") :
    Token.init cls s backend now j none =
      Except.ok { token := none
                  current_time := now
                  payload := [(s.TOKEN_TYPE_CLAIM, ClaimValue.str tt),
                    ("jti", ClaimValue.str j),
                    ("exp", ClaimValue.int (now + lt))] } := by
  obtain ⟨a, b⟩ := cls
  simp only [TokenClass.token_type] at h1
  simp only [TokenClass.lifetime] at h2
  subst h1
  subst h2
  have hje : ("jti" : String) ≠ "exp" := by decide
  simp [Token.init, set_exp, datetime_to_epoch, dictSet, hc1, hc2, hje]

/-- C6: the payload of a freshly constructed token is exactly
{type claim, jti, exp}; a fresh sliding token carries exactly one extra
claim, the refresh expiration boundary computed from the configured
longer lifetime; on the decode path no claim is stamped — a decoded
sliding token's payload is exactly what the backend returned. -/
theorem fresh_payload_exact (cls : TokenClass) (s : Settings)
    (backend : String → Option Payload) (now : Int) (j : String)
    (enabled : Bool) (bl : Nat → Bool) (tt : String) (lt : Int)
    (h1 : cls.token_type = some tt) (h2 : cls.lifetime = some lt)
    (hc1 : s.TOKEN_TYPE_CLAIM ≠ "jti") (hc2 : s.TOKEN_TYPE_CLAIM ≠ "exp")
    (hs1 : s.SLIDING_TOKEN_REFRESH_EXP_CLAIM ≠ s.TOKEN_TYPE_CLAIM)
    (hs2 : s.SLIDING_TOKEN_REFRESH_EXP_CLAIM ≠ "jti")
    (hs3 : s.SLIDING_TOKEN_REFRESH_EXP_CLAIM ≠ "exp") :
    Token.init cls s backend now j none =
      Except.ok { token := none
                  current_time := now
                  payload := [(s.TOKEN_TYPE_CLAIM, ClaimValue.str tt),
                    ("jti", ClaimValue.str j),
                    ("exp", ClaimValue.int (now + lt))] }
    ∧ SlidingToken.init enabled bl s backend now j none =
      Except.ok { token := none
                  current_time := now
                  payload := [(s.TOKEN_TYPE_CLAIM, ClaimValue.str "sliding"),
                    ("jti", ClaimValue.str j),
                    ("exp", ClaimValue.int (now + s.SLIDING_TOKEN_LIFETIME)),
                    (s.SLIDING_TOKEN_REFRESH_EXP_CLAIM,
                      ClaimValue.int (now + s.SLIDING_TOKEN_REFRESH_LIFETIME))] }
    ∧ (∀ enc p st, backend enc = some p →
        SlidingToken.init enabled bl s backend now j (some enc) = Except.ok st →
          st.payload = p) := by
  have hs1' : s.TOKEN_TYPE_CLAIM ≠ s.SLIDING_TOKEN_REFRESH_EXP_CLAIM :=
    fun h => hs1 h.symm
  have hs2' : ("jti" : String) ≠ s.SLIDING_TOKEN_REFRESH_EXP_CLAIM :=
    fun h => hs2 h.symm
  have hs3' : ("exp" : String) ≠ s.SLIDING_TOKEN_REFRESH_EXP_CLAIM :=
    fun h => hs3 h.symm
  refine ⟨token_init_fresh_eq cls s backend now j tt lt h1 h2 hc1 hc2, ?_, ?_⟩
  · have hbase := token_init_fresh_eq (SlidingToken.cls s) s backend now j
      "sliding" s.SLIDING_TOKEN_LIFETIME rfl rfl hc1 hc2
    have hbl := blacklist_init_fresh enabled bl (SlidingToken.cls s) s backend now j
    rw [SlidingToken.init, hbl, hbase]
    simp [set_exp, datetime_to_epoch, dictSet, hs1', hs2', hs3']
  · intro enc p st hbe hst
    rw [SlidingToken.init] at hst
    cases hB : BlacklistMixin.init enabled bl (SlidingToken.cls s) s backend
        now j (some enc) with
    | error e => rw [hB] at hst; cases hst
    | ok self =>
        have hT := blacklist_init_ok enabled bl (SlidingToken.cls s) s backend
          now j (some enc) self hB
        obtain ⟨p', hb', hself⟩ := token_init_encoded_ok (SlidingToken.cls s) s
          backend now j enc self hT
        rw [hbe] at hb'
        have hp : p = p' := Option.some.inj hb'
        subst hp
        have htok : self.token = some enc := by rw [hself]
        rw [hB] at hst
        simp only [htok] at hst
        have hstself : self = st := Except.ok.inj hst
        rw [← hstself, hself]

/-- Witness for C6 at the default settings and a concrete sliding
construction. -/
theorem fresh_payload_exact_witness :
    Token.init (RefreshToken.cls defaultSettings) defaultSettings
      (fun _ => none) 0 "r1" none =
      Except.ok { token := none
                  current_time := 0
                  payload := [(defaultSettings.TOKEN_TYPE_CLAIM, ClaimValue.str "refresh"),
                    ("jti", ClaimValue.str "r1"),
                    ("exp", ClaimValue.int (0 + 86400))] }
    ∧ SlidingToken.init true (fun _ => false) defaultSettings
      (fun _ => none) 0 "r1" none =
      Except.ok { token := none
                  current_time := 0
                  payload := [(defaultSettings.TOKEN_TYPE_CLAIM, ClaimValue.str "sliding"),
                    ("jti", ClaimValue.str "r1"),
                    ("exp", ClaimValue.int (0 + defaultSettings.SLIDING_TOKEN_LIFETIME)),
                    (defaultSettings.SLIDING_TOKEN_REFRESH_EXP_CLAIM,
                      ClaimValue.int (0 + defaultSettings.SLIDING_TOKEN_REFRESH_LIFETIME))] }
    ∧ (∀ enc p st, (fun _ => none : String → Option Payload) enc = some p →
        SlidingToken.init true (fun _ => false) defaultSettings
            (fun _ => none) 0 "r1" (some enc) = Except.ok st →
          st.payload = p) :=
  fresh_payload_exact (RefreshToken.cls defaultSettings) defaultSettings
    (fun _ => none) 0 "r1" true (fun _ => false) "refresh" 86400
    rfl rfl (by decide) (by decide) (by decide) (by decide) (by decide)

/-- C10: when construction from an encoded input succeeds, the returned
token wraps exactly the backend's decoded claims mapping — the validation
steps (exp, type, jti, blacklist) only read the payload and never add,
remove or alter a claim on the decode path. -/
theorem decode_payload_unchanged (cls : TokenClass) (s : Settings)
    (backend : String → Option Payload) (now : Int) (j : String) (enc : String)
    (p : Payload) (hb : backend enc = some p) :
    (∀ st, Token.init cls s backend now j (some enc) = Except.ok st →
        st.payload = p ∧ st.token = some enc ∧ st.current_time = now)
    ∧ (∀ enabled bl st,
        BlacklistMixin.init enabled bl cls s backend now j (some enc) = Except.ok st →
          st.payload = p) := by
  constructor
  · intro st h
    obtain ⟨p', hb', hst⟩ := token_init_encoded_ok cls s backend now j enc st h
    rw [hb] at hb'
    have hp : p = p' := Option.some.inj hb'
    subst hp
    rw [hst]
    exact ⟨rfl, rfl, rfl⟩
  · intro enabled bl st h
    have hT := blacklist_init_ok enabled bl cls s backend now j (some enc) st h
    obtain ⟨p', hb', hst⟩ := token_init_encoded_ok cls s backend now j enc st hT
    rw [hb] at hb'
    have hp : p = p' := Option.some.inj hb'
    subst hp
    rw [hst]

/-- Witness for C10 at a concrete backend and decoded payload. -/
theorem decode_payload_unchanged_witness :
    (∀ st, Token.init (AccessToken.cls defaultSettings) defaultSettings
        (fun _ => some [("exp", ClaimValue.int 100),
                        ("token_type", ClaimValue.str "access"),
                        ("jti", ClaimValue.str "abc")]) 0 "j" (some "enc") =
          Except.ok st →
        st.payload = [("exp", ClaimValue.int 100),
                      ("token_type", ClaimValue.str "access"),
                      ("jti", ClaimValue.str "abc")]
          ∧ st.token = some "enc" ∧ st.current_time = 0)
    ∧ (∀ enabled bl st,
        BlacklistMixin.init enabled bl (AccessToken.cls defaultSettings)
            defaultSettings
            (fun _ => some [("exp", ClaimValue.int 100),
                            ("token_type", ClaimValue.str "access"),
                            ("jti", ClaimValue.str "abc")]) 0 "j" (some "enc") =
          Except.ok st →
        st.payload = [("exp", ClaimValue.int 100),
                      ("token_type", ClaimValue.str "access"),
                      ("jti", ClaimValue.str "abc")]) :=
  decode_payload_unchanged (AccessToken.cls defaultSettings) defaultSettings
    (fun _ => some [("exp", ClaimValue.int 100),
                    ("token_type", ClaimValue.str "access"),
                    ("jti", ClaimValue.str "abc")]) 0 "j" "enc"
    [("exp", ClaimValue.int 100), ("token_type", ClaimValue.str "access"),
      ("jti", ClaimValue.str "abc")] rfl

/-- C5 as stated fails on the code: a decoded refresh token that passes
every validation but whose jti is not a well-formed hexadecimal UUID
string is neither looked up in the (here empty) blacklist nor returned
as the otherwise-valid token — `UUID(hex=jti)` raises an uncaught
`ValueError` first. -/
theorem blacklist_malformed_jti_counterexample :
    Token.init (RefreshToken.cls defaultSettings) defaultSettings
        (fun _ => some [("exp", ClaimValue.int 100),
                        ("token_type", ClaimValue.str "refresh"),
                        ("jti", ClaimValue.str "abc")]) 0 "j" (some "enc") =
      Except.ok { token := some "enc"
                  current_time := 0
                  payload := [("exp", ClaimValue.int 100),
                    ("token_type", ClaimValue.str "refresh"),
                    ("jti", ClaimValue.str "abc")] }
    ∧ uuid_from_hex "abc" = none
    ∧ BlacklistMixin.init true (fun _ => false)
        (RefreshToken.cls defaultSettings) defaultSettings
        (fun _ => some [("exp", ClaimValue.int 100),
                        ("token_type", ClaimValue.str "refresh"),
                        ("jti", ClaimValue.str "abc")]) 0 "j" (some "enc") =
      Except.error JwtError.otherError
    ∧ ∀ m, JwtError.otherError ≠ JwtError.tokenError m := by
  refine ⟨rfl, rfl, rfl, ?_⟩
  intro m h
  cases h

/-- C5 (amended): with the revocation feature enabled, an encoded token
that passes every construction-time validation and whose jti is a
well-formed hexadecimal UUID string is additionally looked up in the
blacklist by its UUID value and rejected with `TokenError("Token is
blacklisted")` when present, returned unchanged when absent; a
malformed jti raises the UUID parser's `ValueError` (not a `TokenError`)
before any lookup; fresh construction performs no blacklist lookup (the
result does not depend on the ledger).  `RefreshToken` and
`SlidingToken` instantiate `cls`. -/
theorem blacklist_checked_on_decode (bl : Nat → Bool) (cls : TokenClass)
    (s : Settings) (backend : String → Option Payload) (now : Int) (j : String)
    (enc : String) (st : Token) (jti : String)
    (hok : Token.init cls s backend now j (some enc) = Except.ok st)
    (hjti : dictGet st.payload "jti" = some (ClaimValue.str jti)) :
    (∀ u, uuid_from_hex jti = some u → bl u = true →
      BlacklistMixin.init true bl cls s backend now j (some enc) =
        Except.error (JwtError.tokenError "Token is blacklisted"))
    ∧ (∀ u, uuid_from_hex jti = some u → bl u = false →
      BlacklistMixin.init true bl cls s backend now j (some enc) = Except.ok st)
    ∧ (uuid_from_hex jti = none →
      BlacklistMixin.init true bl cls s backend now j (some enc) =
        Except.error JwtError.otherError)
    ∧ (∀ bl2 : Nat → Bool,
        BlacklistMixin.init true bl cls s backend now j none =
          BlacklistMixin.init true bl2 cls s backend now j none) := by
  obtain ⟨p, hb, hst⟩ := token_init_encoded_ok cls s backend now j enc st hok
  have htok : st.token = some enc := by rw [hst]
  refine ⟨?_, ?_, ?_, ?_⟩
  · intro u hu hbl
    simp [BlacklistMixin.init, hok, htok, check_blacklist, hjti, hu, hbl]
  · intro u hu hbl
    simp [BlacklistMixin.init, hok, htok, check_blacklist, hjti, hu, hbl]
  · intro hu
    simp [BlacklistMixin.init, hok, htok, check_blacklist, hjti, hu]
  · intro bl2
    rw [blacklist_init_fresh, blacklist_init_fresh]

/-- Witness for C5 at a concrete refresh token carrying a `uuid4().hex`
shaped jti: a ledger that blacklists its UUID value rejects the decode,
and the matching antecedents are concretely satisfiable. -/
theorem blacklist_checked_on_decode_witness :
    (∀ u, uuid_from_hex "0123456789abcdef0123456789abcdef" = some u →
      (fun v => v == 0x0123456789abcdef0123456789abcdef) u = true →
      BlacklistMixin.init true (fun v => v == 0x0123456789abcdef0123456789abcdef)
          (RefreshToken.cls defaultSettings) defaultSettings
          (fun _ => some [("exp", ClaimValue.int 100),
                          ("token_type", ClaimValue.str "refresh"),
                          ("jti", ClaimValue.str "0123456789abcdef0123456789abcdef")])
          0 "j" (some "enc") =
        Except.error (JwtError.tokenError "Token is blacklisted"))
    ∧ (∀ u, uuid_from_hex "0123456789abcdef0123456789abcdef" = some u →
      (fun v => v == 0x0123456789abcdef0123456789abcdef) u = false →
      BlacklistMixin.init true (fun v => v == 0x0123456789abcdef0123456789abcdef)
          (RefreshToken.cls defaultSettings) defaultSettings
          (fun _ => some [("exp", ClaimValue.int 100),
                          ("token_type", ClaimValue.str "refresh"),
                          ("jti", ClaimValue.str "0123456789abcdef0123456789abcdef")])
          0 "j" (some "enc") =
        Except.ok { token := some "enc"
                    current_time := 0
                    payload := [("exp", ClaimValue.int 100),
                      ("token_type", ClaimValue.str "refresh"),
                      ("jti", ClaimValue.str "0123456789abcdef0123456789abcdef")] })
    ∧ (uuid_from_hex "0123456789abcdef0123456789abcdef" = none →
      BlacklistMixin.init true (fun v => v == 0x0123456789abcdef0123456789abcdef)
          (RefreshToken.cls defaultSettings) defaultSettings
          (fun _ => some [("exp", ClaimValue.int 100),
                          ("token_type", ClaimValue.str "refresh"),
                          ("jti", ClaimValue.str "0123456789abcdef0123456789abcdef")])
          0 "j" (some "enc") =
        Except.error JwtError.otherError)
    ∧ (∀ bl2 : Nat → Bool,
        BlacklistMixin.init true (fun v => v == 0x0123456789abcdef0123456789abcdef)
            (RefreshToken.cls defaultSettings) defaultSettings
            (fun _ => some [("exp", ClaimValue.int 100),
                            ("token_type", ClaimValue.str "refresh"),
                            ("jti", ClaimValue.str "0123456789abcdef0123456789abcdef")])
            0 "j" none =
          BlacklistMixin.init true bl2 (RefreshToken.cls defaultSettings)
            defaultSettings
            (fun _ => some [("exp", ClaimValue.int 100),
                            ("token_type", ClaimValue.str "refresh"),
                            ("jti", ClaimValue.str "0123456789abcdef0123456789abcdef")])
            0 "j" none) :=
  blacklist_checked_on_decode (fun v => v == 0x0123456789abcdef0123456789abcdef)
    (RefreshToken.cls defaultSettings) defaultSettings
    (fun _ => some [("exp", ClaimValue.int 100),
                    ("token_type", ClaimValue.str "refresh"),
                    ("jti", ClaimValue.str "0123456789abcdef0123456789abcdef")])
    0 "j" "enc"
    { token := some "enc"
      current_time := 0
      payload := [("exp", ClaimValue.int 100),
        ("token_type", ClaimValue.str "refresh"),
        ("jti", ClaimValue.str "0123456789abcdef0123456789abcdef")] }
    "0123456789abcdef0123456789abcdef" rfl rfl

/-- C3: the access token produced by `RefreshToken.access_token` carries
an exp equal to the integer epoch of the refresh token's capture time
plus the access lifetime — computed from the refresh token's
`current_time`, not from the derivation's own wall-clock time `nowA`,
whatever that time is. -/
theorem access_exp_from_refresh_time (s : Settings) (self : Token)
    (nowA : Int) (jA : String) (T : Int) (hT : self.current_time = T) :
    ∃ acc self2, RefreshToken.access_token s self nowA jA = Except.ok (acc, self2)
      ∧ dictGet acc.payload "exp" =
          some (ClaimValue.int (datetime_to_epoch (T + s.ACCESS_TOKEN_LIFETIME))) := by
  refine ⟨_, _, rfl, ?_⟩
  rw [foldl_copy_fst_no_copy s self.payload _ _ "exp" (by simp [no_copy_claims])]
  simp [set_exp, datetime_to_epoch, dictGet_dictSet_self, hT]

/-- Witness for C3: a refresh token captured at time 0 derived at time
10 still yields an access exp of 0 + the access lifetime. -/
theorem access_exp_from_refresh_time_witness :
    ∃ acc self2, RefreshToken.access_token defaultSettings
        { token := none
          current_time := 0
          payload := [("token_type", ClaimValue.str "refresh"),
            ("jti", ClaimValue.str "r1"),
            ("exp", ClaimValue.int 86400)] } 10 "a1" = Except.ok (acc, self2)
      ∧ dictGet acc.payload "exp" =
          some (ClaimValue.int (datetime_to_epoch (0 + defaultSettings.ACCESS_TOKEN_LIFETIME))) :=
  access_exp_from_refresh_time defaultSettings
    { token := none
      current_time := 0
      payload := [("token_type", ClaimValue.str "refresh"),
        ("jti", ClaimValue.str "r1"),
        ("exp", ClaimValue.int 86400)] } 10 "a1" 0 rfl

/-- C4: derivation copies every claim of the refresh token outside the
exclusion set {type claim, exp, jti} onto the access token unchanged;
the derived token's jti, exp and type claim take the fresh values (and so
differ from the refresh token's whenever the refresh token's values
differ from them); the refresh token itself is returned unmutated. -/
theorem access_token_claim_copy (s : Settings) (self : Token) (nowA : Int)
    (jA : String) (hnd : (self.payload.map Prod.fst).Nodup)
    (hc1 : s.TOKEN_TYPE_CLAIM ≠ "jti") (hc2 : s.TOKEN_TYPE_CLAIM ≠ "exp") :
    ∃ acc self2, RefreshToken.access_token s self nowA jA = Except.ok (acc, self2)
      ∧ (∀ c v, c ∉ no_copy_claims s → dictGet self.payload c = some v →
          dictGet acc.payload c = some v)
      ∧ dictGet acc.payload "jti" = some (ClaimValue.str jA)
      ∧ dictGet acc.payload s.TOKEN_TYPE_CLAIM = some (ClaimValue.str "access")
      ∧ dictGet acc.payload "exp" =
          some (ClaimValue.int (self.current_time + s.ACCESS_TOKEN_LIFETIME))
      ∧ (dictGet self.payload "jti" ≠ some (ClaimValue.str jA) →
          dictGet acc.payload "jti" ≠ dictGet self.payload "jti")
      ∧ (dictGet self.payload s.TOKEN_TYPE_CLAIM ≠ some (ClaimValue.str "access") →
          dictGet acc.payload s.TOKEN_TYPE_CLAIM ≠
            dictGet self.payload s.TOKEN_TYPE_CLAIM)
      ∧ (dictGet self.payload "exp" ≠
            some (ClaimValue.int (self.current_time + s.ACCESS_TOKEN_LIFETIME)) →
          dictGet acc.payload "exp" ≠ dictGet self.payload "exp")
      ∧ self2 = self := by
  have hje : ("jti" : String) ≠ "exp" := by decide
  refine ⟨_, _, rfl, ?_, ?_, ?_, ?_, ?_, ?_, ?_, ?_⟩
  · intro c v hcnc hcv
    exact foldl_copy_fst_copied s self.payload _ _ c v hcnc hnd hcv
  · rw [foldl_copy_fst_no_copy s self.payload _ _ "jti" (by simp [no_copy_claims])]
    simp [set_exp, datetime_to_epoch, dictGet_dictSet_ne, dictGet_dictSet_self, hje]
  · rw [foldl_copy_fst_no_copy s self.payload _ _ s.TOKEN_TYPE_CLAIM
      (by simp [no_copy_claims])]
    simp [set_exp, datetime_to_epoch, dictGet_dictSet_ne, dictGet_dictSet_self,
      hc1, hc2]
  · rw [foldl_copy_fst_no_copy s self.payload _ _ "exp" (by simp [no_copy_claims])]
    simp [set_exp, datetime_to_epoch, dictGet_dictSet_self]
  · intro hne
    rw [foldl_copy_fst_no_copy s self.payload _ _ "jti" (by simp [no_copy_claims])]
    simp only [set_exp, datetime_to_epoch]
    rw [dictGet_dictSet_ne _ _ _ _ hje, dictGet_dictSet_ne _ _ _ _ hje,
      dictGet_dictSet_self]
    exact fun h => hne h.symm
  · intro hne
    rw [foldl_copy_fst_no_copy s self.payload _ _ s.TOKEN_TYPE_CLAIM
      (by simp [no_copy_claims])]
    simp only [set_exp, datetime_to_epoch]
    rw [dictGet_dictSet_ne _ _ _ _ hc2, dictGet_dictSet_ne _ _ _ _ hc2,
      dictGet_dictSet_ne _ _ _ _ hc1, dictGet_dictSet_self]
    exact fun h => hne h.symm
  · intro hne
    rw [foldl_copy_fst_no_copy s self.payload _ _ "exp" (by simp [no_copy_claims])]
    simp only [set_exp, datetime_to_epoch]
    rw [dictGet_dictSet_self]
    exact fun h => hne h.symm
  · rw [foldl_copy_snd]

/-- Witness for C4 at a concrete refresh token carrying a custom claim. -/
theorem access_token_claim_copy_witness :
    ∃ acc self2, RefreshToken.access_token defaultSettings
        { token := none
          current_time := 0
          payload := [("token_type", ClaimValue.str "refresh"),
            ("jti", ClaimValue.str "r1"),
            ("exp", ClaimValue.int 86400),
            ("user_id", ClaimValue.int 42)] } 10 "a1" = Except.ok (acc, self2)
      ∧ (∀ c v, c ∉ no_copy_claims defaultSettings →
          dictGet [("token_type", ClaimValue.str "refresh"),
            ("jti", ClaimValue.str "r1"),
            ("exp", ClaimValue.int 86400),
            ("user_id", ClaimValue.int 42)] c = some v →
          dictGet acc.payload c = some v)
      ∧ dictGet acc.payload "jti" = some (ClaimValue.str "a1")
      ∧ dictGet acc.payload defaultSettings.TOKEN_TYPE_CLAIM =
          some (ClaimValue.str "access")
      ∧ dictGet acc.payload "exp" =
          some (ClaimValue.int (0 + defaultSettings.ACCESS_TOKEN_LIFETIME))
      ∧ (dictGet [("token_type", ClaimValue.str "refresh"),
            ("jti", ClaimValue.str "r1"),
            ("exp", ClaimValue.int 86400),
            ("user_id", ClaimValue.int 42)] "jti" ≠ some (ClaimValue.str "a1") →
          dictGet acc.payload "jti" ≠
            dictGet [("token_type", ClaimValue.str "refresh"),
              ("jti", ClaimValue.str "r1"),
              ("exp", ClaimValue.int 86400),
              ("user_id", ClaimValue.int 42)] "jti")
      ∧ (dictGet [("token_type", ClaimValue.str "refresh"),
            ("jti", ClaimValue.str "r1"),
            ("exp", ClaimValue.int 86400),
            ("user_id", ClaimValue.int 42)] defaultSettings.TOKEN_TYPE_CLAIM ≠
              some (ClaimValue.str "access") →
          dictGet acc.payload defaultSettings.TOKEN_TYPE_CLAIM ≠
            dictGet [("token_type", ClaimValue.str "refresh"),
              ("jti", ClaimValue.str "r1"),
              ("exp", ClaimValue.int 86400),
              ("user_id", ClaimValue.int 42)] defaultSettings.TOKEN_TYPE_CLAIM)
      ∧ (dictGet [("token_type", ClaimValue.str "refresh"),
            ("jti", ClaimValue.str "r1"),
            ("exp", ClaimValue.int 86400),
            ("user_id", ClaimValue.int 42)] "exp" ≠
              some (ClaimValue.int (0 + defaultSettings.ACCESS_TOKEN_LIFETIME)) →
          dictGet acc.payload "exp" ≠
            dictGet [("token_type", ClaimValue.str "refresh"),
              ("jti", ClaimValue.str "r1"),
              ("exp", ClaimValue.int 86400),
              ("user_id", ClaimValue.int 42)] "exp")
      ∧ self2 = { token := none
                  current_time := 0
                  payload := [("token_type", ClaimValue.str "refresh"),
                    ("jti", ClaimValue.str "r1"),
                    ("exp", ClaimValue.int 86400),
                    ("user_id", ClaimValue.int 42)] } :=
  access_token_claim_copy defaultSettings
    { token := none
      current_time := 0
      payload := [("token_type", ClaimValue.str "refresh"),
        ("jti", ClaimValue.str "r1"),
        ("exp", ClaimValue.int 86400),
        ("user_id", ClaimValue.int 42)] } 10 "a1"
    (by decide) (by decide) (by decide)

/-- C9: `for_user` returns a freshly constructed token of the variant
whose configured user id claim holds the user's identifier — kept as an
integer when the identifier is an integer, coerced to its string form
otherwise; every other claim is exactly that of a fresh token (the
payload is the fresh payload with the one claim set). -/
theorem for_user_sets_user_id_claim (cls : TokenClass) (s : Settings)
    (now : Int) (j : String) (uid : UserIdValue) (tt : String) (lt : Int)
    (h1 : cls.token_type = some tt) (h2 : cls.lifetime = some lt) :
    ∃ t f, Token.for_user cls s now j uid = Except.ok t
      ∧ Token.init cls s (fun _ => none) now j none = Except.ok f
      ∧ t.payload = dictSet f.payload s.USER_ID_CLAIM (coerce_user_id uid)
      ∧ t.token = none ∧ t.current_time = now
      ∧ dictGet t.payload s.USER_ID_CLAIM = some (coerce_user_id uid)
      ∧ (∀ c, c ≠ s.USER_ID_CLAIM → dictGet t.payload c = dictGet f.payload c)
      ∧ (∀ n, coerce_user_id (UserIdValue.int n) = ClaimValue.int n)
      ∧ (∀ w : UserIdValue, (∀ n, w ≠ UserIdValue.int n) →
          coerce_user_id w = ClaimValue.str (text_type w)) := by
  obtain ⟨a, b⟩ := cls
  simp only [TokenClass.token_type] at h1
  simp only [TokenClass.lifetime] at h2
  subst h1
  subst h2
  refine ⟨_, _, rfl, rfl, rfl, rfl, rfl, dictGet_dictSet_self _ _ _, ?_, fun n => rfl, ?_⟩
  · intro c hc
    exact dictGet_dictSet_ne _ _ _ c hc
  · intro w hw
    cases w with
    | int n => exact absurd rfl (hw n)
    | str r => rfl
    | other r => rfl

/-- Witness for C9 at concrete identities: a string principal id "alice"
and an integer principal id 42. -/
theorem for_user_sets_user_id_claim_witness :
    (∃ t f, Token.for_user (AccessToken.cls defaultSettings) defaultSettings
        0 "j" (UserIdValue.str "alice") = Except.ok t
      ∧ Token.init (AccessToken.cls defaultSettings) defaultSettings
          (fun _ => none) 0 "j" none = Except.ok f
      ∧ t.payload = dictSet f.payload defaultSettings.USER_ID_CLAIM
          (coerce_user_id (UserIdValue.str "alice"))
      ∧ t.token = none ∧ t.current_time = 0
      ∧ dictGet t.payload defaultSettings.USER_ID_CLAIM =
          some (coerce_user_id (UserIdValue.str "alice"))
      ∧ (∀ c, c ≠ defaultSettings.USER_ID_CLAIM →
          dictGet t.payload c = dictGet f.payload c)
      ∧ (∀ n, coerce_user_id (UserIdValue.int n) = ClaimValue.int n)
      ∧ (∀ w : UserIdValue, (∀ n, w ≠ UserIdValue.int n) →
          coerce_user_id w = ClaimValue.str (text_type w)))
    ∧ coerce_user_id (UserIdValue.str "alice") = ClaimValue.str "alice"
    ∧ coerce_user_id (UserIdValue.int 42) = ClaimValue.int 42 :=
  ⟨for_user_sets_user_id_claim (AccessToken.cls defaultSettings) defaultSettings
      0 "j" (UserIdValue.str "alice") "access" 300 rfl rfl, rfl, rfl⟩

/-- C7 as stated fails on the code: a class with no lifetime is rejected
with a `TokenError`, not with a `ConfigurationError`, at construction. -/
theorem misdefined_class_counterexample :
    Token.init { token_type := some "test", lifetime := none } defaultSettings
        (fun _ => none) 0 "a" none =
      Except.error (JwtError.tokenError "Cannot create token with no type or lifetime")
    ∧ ∀ m, Token.init { token_type := some "test", lifetime := none } defaultSettings
        (fun _ => none) 0 "a" none ≠
          Except.error (JwtError.configurationError m) := by
  refine ⟨rfl, ?_⟩
  intro m h
  simp [Token.init] at h

/-- C7 (amended): for a class whose type tag or lifetime is undefined,
construction with or without an encoded input fails with
`TokenError("Cannot create token with no type or lifetime")` — the same
exception class as runtime validation failures, not a distinct
`ConfigurationError` — before any decoding, claim stamping or other
work (the result does not depend on the backend, the clock, the fresh id
or the input). -/
theorem misdefined_class_token_error (cls : TokenClass) (s : Settings)
    (backend : String → Option Payload) (now : Int) (j : String)
    (tok : Option String) (h : cls.token_type = none ∨ cls.lifetime = none) :
    Token.init cls s backend now j tok =
      Except.error (JwtError.tokenError "Cannot create token with no type or lifetime") := by
  obtain ⟨tt, lt⟩ := cls
  cases tt <;> cases lt <;>
    first
      | rfl
      | (exfalso; rcases h with h | h <;> simp at h)

/-- Witness for C7 (amended) at a concrete misdefined class. -/
theorem misdefined_class_token_error_witness :
    Token.init { token_type := none, lifetime := some 60 } defaultSettings
        (fun _ => none) 7 "b" (some "abc") =
      Except.error (JwtError.tokenError "Cannot create token with no type or lifetime") :=
  misdefined_class_token_error { token_type := none, lifetime := some 60 }
    defaultSettings (fun _ => none) 7 "b" (some "abc") (Or.inl rfl)

/-- C8 as stated fails on the code: two rejected encoded inputs — one
failing backend verification, one missing the type claim — carry two
different user-facing messages. -/
theorem distinct_validation_messages_counterexample :
    Token.init (AccessToken.cls defaultSettings) defaultSettings
        (fun enc => if enc = "t1" then none else some [("exp", ClaimValue.int 100)])
        0 "j" (some "t1") =
      Except.error (JwtError.tokenError "Token is invalid or expired")
    ∧ Token.init (AccessToken.cls defaultSettings) defaultSettings
        (fun enc => if enc = "t1" then none else some [("exp", ClaimValue.int 100)])
        0 "j" (some "t2") =
      Except.error (JwtError.tokenError "Token has no type")
    ∧ ("Token is invalid or expired" : String) ≠ "Token has no type" := by
  refine ⟨rfl, rfl, by decide⟩

/-- C8 (amended): the anti-oracle collapse applies to the backend step —
every backend-reported verification failure, whatever its internal
reason, is mapped to the one generic message "Token is invalid or
expired"; the later semantic validation steps carry their own
step-specific messages. -/
theorem backend_failure_uniform_message (cls : TokenClass) (s : Settings)
    (backend : String → Option Payload) (now : Int) (j : String) (enc : String)
    (tt : String) (lt : Int) (h1 : cls.token_type = some tt)
    (h2 : cls.lifetime = some lt) (hb : backend enc = none) :
    Token.init cls s backend now j (some enc) =
      Except.error (JwtError.tokenError "Token is invalid or expired") := by
  obtain ⟨a, b⟩ := cls
  simp only [TokenClass.token_type] at h1
  simp only [TokenClass.lifetime] at h2
  subst h1
  subst h2
  simp [Token.init, hb]

/-- Witness for C8 (amended) at a concrete backend that rejects every
input. -/
theorem backend_failure_uniform_message_witness :
    Token.init (AccessToken.cls defaultSettings) defaultSettings (fun _ => none)
        0 "j" (some "x") =
      Except.error (JwtError.tokenError "Token is invalid or expired") :=
  backend_failure_uniform_message (AccessToken.cls defaultSettings) defaultSettings
    (fun _ => none) 0 "j" "x" "access" 300 rfl rfl rfl
